import Mathlib

/-!
Verification of the venous-stenting image-annotation scripts.

The development shallowly embeds the decision logic of the repository:
the click-point deduplicator `add_clicked_point`, the click/save/delete
session-state machine of `beefed_up_venous.py` (with its `next_id`
counter), the summary-table projector `df_summary` (both the
`beefed_up_venous.py` variant that merges a side qualifier and filters
"Stenosis", and the `test.py`/`venous_stent.py` variant that filters
"Occlusion"), the FastAPI relay of `main.py`, and the hex-key emitter
of `api_maker.py`.

Pixel coordinates are Python floats in the scripts; here they are taken
in an arbitrary linearly ordered commutative ring (so every theorem
covers `ℚ`, `ℝ`, and `ℤ`; concrete evaluations instantiate `ℤ`).
-/

/-- A recorded click coordinate (a `{x, y}` dict in the scripts). -/
structure ClickPoint (R : Type) where
  x : R
  y : R
deriving DecidableEq

/-- A saved record in `st.session_state.annotations`: a dict
`{id, x, y, location, value}` plus an optional `side` key (the `side`
key is present only for side-required locations; `none` models its
absence). -/
structure Ann (R : Type) where
  id : Nat
  x : R
  y : R
  location : String
  side : Option String
  value : String
deriving DecidableEq

/-- The controlled vocabulary of `beefed_up_venous.py` (lines 19-37). -/
def LOCATIONS : List String :=
  ["Select...",
   "Torcula",
   "Posterior superior sagittal sinus",
   "Mid superior sagittal sinus",
   "Medial transverse sinus",
   "Lateral transverse sinus",
   "Transverse-sigmoid junction",
   "Sigmoid sinus",
   "Jugular bulb",
   "Internal jugular vein",
   "Internal jugular vein origin",
   "Subclavian",
   "Superior Vena Cava",
   "Inferior Vena Cava",
   "Stenosis",
   "Pre-Stenosis",
   "Post-Stenosis"]

/-- The locations that require a side selection
(`beefed_up_venous.py` lines 40-49). -/
def SIDE_REQUIRED : List String :=
  ["Medial transverse sinus",
   "Lateral transverse sinus",
   "Transverse-sigmoid junction",
   "Sigmoid sinus",
   "Jugular bulb",
   "Internal jugular vein",
   "Internal jugular vein origin",
   "Subclavian"]

/-- The per-pair duplicate test of `add_clicked_point`
(`beefed_up_venous.py` line 65): strict less-than on the absolute
coordinate difference, independently per axis. -/
def isDupPair {R : Type} [LinearOrderedRing R] (tolerance : R)
    (p new_point : ClickPoint R) : Bool :=
  decide (|p.x - new_point.x| < tolerance) &&
    decide (|p.y - new_point.y| < tolerance)

/-- `add_clicked_point` (`beefed_up_venous.py` lines 61-67) with the
local `tolerance` variable lifted to a parameter: scan the recorded
points; if any is within `tolerance` on both axes, return the list
unchanged, else append the new point. -/
def addClickedPointTol {R : Type} [LinearOrderedRing R] (tolerance : R)
    (clicked_points : List (ClickPoint R)) (new_point : ClickPoint R) :
    List (ClickPoint R) :=
  if clicked_points.any (fun p => isDupPair tolerance p new_point) then
    clicked_points
  else
    clicked_points ++ [new_point]

/-- `add_clicked_point` exactly as in the source, where `tolerance = 5`. -/
def add_clicked_point {R : Type} [LinearOrderedRing R]
    (clicked_points : List (ClickPoint R)) (new_point : ClickPoint R) :
    List (ClickPoint R) :=
  addClickedPointTol 5 clicked_points new_point

/-- The reconciliation test of `beefed_up_venous.py` lines 141-145: a
click point counts as annotated when some saved record lies within the
5-pixel tolerance on both axes. -/
def already_annotated {R : Type} [LinearOrderedRing R]
    (anns : List (Ann R)) (pt : ClickPoint R) : Bool :=
  anns.any fun a =>
    decide (|a.x - pt.x| < 5) && decide (|a.y - pt.y| < 5)

/-- Python's `str.strip()` on the character list: drop whitespace from
both ends. -/
def stripChars (cs : List Char) : List Char :=
  ((cs.dropWhile Char.isWhitespace).reverse.dropWhile Char.isWhitespace).reverse

/-- Python's `str.strip()`. -/
def pyStrip (s : String) : String := String.mk (stripChars s.data)

/-- The `side` cell seen by the summary lambda: `fillna("")` turns an
absent side into the empty string (`beefed_up_venous.py` line 286). -/
def sideCell {R : Type} (a : Ann R) : String := a.side.getD ""

/-- The location transform of `beefed_up_venous.py` lines 287-292:
when the side cell is truthy (non-empty) and not the "Select..."
sentinel, the row's location becomes `f"{side} {location}".strip()`,
else it stays unchanged. -/
def projectedLocation {R : Type} (a : Ann R) : String :=
  if sideCell a ≠ "" ∧ sideCell a ≠ "Select..." then
    pyStrip (sideCell a ++ " " ++ a.location)
  else
    a.location

/-- A two-column data frame: the column labels and the rows of the
`location`/`value` summary. -/
structure Frame where
  columns : List String
  rows : List (String × String)
deriving DecidableEq

/-- `df_summary` of `beefed_up_venous.py` lines 281-295: on an empty
record list build an empty frame with columns `location`, `value`;
otherwise drop the rows whose location is in `["Stenosis"]`, merge the
side qualifier into the location, and keep the two columns. -/
def df_summary {R : Type} (anns : List (Ann R)) : Frame :=
  if anns.isEmpty then
    { columns := ["location", "value"], rows := [] }
  else
    { columns := ["location", "value"],
      rows :=
        (anns.filter fun a => !(["Stenosis"].contains a.location)).map
          fun a => (projectedLocation a, a.value) }

/-- `df_summary` of `test.py` lines 206-210 and `venous_stent.py` lines
147-151: same empty case; otherwise keep rows whose location is not
"Occlusion" and project onto the `location` and `value` columns
unchanged. -/
def df_summary_v1 {R : Type} (anns : List (Ann R)) : Frame :=
  if anns.isEmpty then
    { columns := ["location", "value"], rows := [] }
  else
    { columns := ["location", "value"],
      rows :=
        (anns.filter fun a => a.location != "Occlusion").map
          fun a => (a.location, a.value) }

/-- A pandas cell of the `side` column in `testv2.py`'s summary frame:
`some s` is a stored string, `none` is the NaN a record without the
`side` key gets when the column exists.  `NaN != "Select..."` is true
in Python, so the NaN cell passes the sentinel test. -/
def cellNeqSentinel : Option String → Bool
  | some s => s != "Select..."
  | none => true

/-- The f-string rendering of a `side` cell: NaN renders as "nan". -/
def cellStr : Option String → String
  | some s => s
  | none => "nan"

/-- The location transform of `testv2.py` lines 277-280: no `fillna`
and no `.strip()`; the guard is `"side" in row and
row["side"] != "Select..."`, where `"side" in row` tests the frame's
columns, so it holds for every row as soon as the frame has a side
column, and an absent side is then the NaN cell. -/
def projectedLocationV2 {R : Type} (hasSideCol : Bool) (a : Ann R) : String :=
  if hasSideCol && cellNeqSentinel a.side then
    cellStr a.side ++ " " ++ a.location
  else
    a.location

/-- Whether the frame built from the records has a `side` column: pandas
creates it when at least one record dict carries the key. -/
def hasSideColumn {R : Type} (anns : List (Ann R)) : Bool :=
  anns.any fun a => a.side.isSome

/-- `df_summary` of `testv2.py` lines 272-283: drop "Stenosis" rows,
apply the `testv2.py` location lambda (with the side column present
exactly when some record has a side), keep the two columns. -/
def df_summary_v2 {R : Type} (anns : List (Ann R)) : Frame :=
  if anns.isEmpty then
    { columns := ["location", "value"], rows := [] }
  else
    { columns := ["location", "value"],
      rows :=
        (anns.filter fun a => !(["Stenosis"].contains a.location)).map
          fun a => (projectedLocationV2 (hasSideColumn anns) a, a.value) }

/-- The delete-button handler (`beefed_up_venous.py` line 195,
`venous_stent.py` line 112): keep every record whose id differs. -/
def deleteById {R : Type} (anns : List (Ann R)) (i : Nat) : List (Ann R) :=
  anns.filter fun a => a.id != i

/-- The records reachable in a `beefed_up_venous.py` session: the
location is in that script's vocabulary and the side, when present, is
"Left" or "Right" (all its save handler can store).  Used only for
facts about that script's projector; the `test.py`/`venous_stent.py`
scripts have their own vocabulary (with "Occlusion", no sides) and
their projector is treated without this restriction. -/
def WellFormedAnn {R : Type} (a : Ann R) : Prop :=
  a.location ∈ LOCATIONS ∧
    (a.side = none ∨ a.side = some "Left" ∨ a.side = some "Right")

instance {R : Type} (a : Ann R) : Decidable (WellFormedAnn a) :=
  inferInstanceAs (Decidable (_ ∧ _))

/-- Shape of `addClickedPointTol` on a one-element collection. -/
theorem addTol_singleton {R : Type} [LinearOrderedRing R] (t : R)
    (p q : ClickPoint R) :
    addClickedPointTol t [p] q =
      if |p.x - q.x| < t ∧ |p.y - q.y| < t then [p] else [p, q] := by
  by_cases h : |p.x - q.x| < t ∧ |p.y - q.y| < t <;>
    simp [addClickedPointTol, isDupPair, h]

/-- Claim C1: for every tolerance `t` and click points `p`, `q`, the
deduplicator treats `q` as a duplicate of `p` (the collection `[p]` is
returned unchanged) exactly when `|p.x - q.x| < t` and
`|p.y - q.y| < t`, strictly per axis; when the offset on either axis is
exactly `t`, the point is appended instead. -/
theorem dedup_strict_tolerance {R : Type} [LinearOrderedRing R] (t : R)
    (p q : ClickPoint R) :
    (addClickedPointTol t [p] q = [p] ↔
      |p.x - q.x| < t ∧ |p.y - q.y| < t) ∧
    ((|p.x - q.x| = t ∨ |p.y - q.y| = t) →
      addClickedPointTol t [p] q = [p] ++ [q]) := by
  constructor
  · rw [addTol_singleton]
    by_cases h : |p.x - q.x| < t ∧ |p.y - q.y| < t <;> simp [h]
  · intro h
    have hnot : ¬(|p.x - q.x| < t ∧ |p.y - q.y| < t) := by
      rcases h with h | h
      · exact fun hc => absurd hc.1 (by rw [h]; exact lt_irrefl t)
      · exact fun hc => absurd hc.2 (by rw [h]; exact lt_irrefl t)
    rw [addTol_singleton, if_neg hnot]
    rfl

/-- Witness for C1: with tolerance 5, a candidate exactly 5 away on the
x axis is not deduplicated and gets appended. -/
theorem dedup_strict_tolerance_witness :
    addClickedPointTol (5 : ℤ) [⟨100, 200⟩] ⟨105, 200⟩ =
      [⟨100, 200⟩] ++ [⟨105, 200⟩] :=
  (dedup_strict_tolerance (5 : ℤ) ⟨100, 200⟩ ⟨105, 200⟩).2
    (Or.inl (by decide))

/-- Claim C8: submitting a candidate that already matches some recorded
point within the 5-pixel tolerance on both axes leaves the click-point
collection unchanged, so a duplicate click never grows it. -/
theorem dedup_idempotent {R : Type} [LinearOrderedRing R]
    (clicked_points : List (ClickPoint R)) (q : ClickPoint R)
    (h : ∃ p ∈ clicked_points, |p.x - q.x| < 5 ∧ |p.y - q.y| < 5) :
    add_clicked_point clicked_points q = clicked_points := by
  have hany : clicked_points.any (fun p => isDupPair 5 p q) = true := by
    rcases h with ⟨p, hp, h1, h2⟩
    exact List.any_eq_true.mpr ⟨p, hp, by simp [isDupPair, h1, h2]⟩
  simp [add_clicked_point, addClickedPointTol, hany]

/-- Witness for C8: a click at (103, 203) matching the recorded point
(100, 200) is dropped. -/
theorem dedup_idempotent_witness :
    add_clicked_point [(⟨100, 200⟩ : ClickPoint ℤ)] ⟨103, 203⟩ =
      [⟨100, 200⟩] :=
  dedup_idempotent [⟨100, 200⟩] ⟨103, 203⟩ ⟨⟨100, 200⟩, by decide⟩

/-- When the `side` key is absent, `fillna("")` yields a falsy cell and
the location passes through unchanged. -/
theorem projectedLocation_none {R : Type} (a : Ann R) (h : a.side = none) :
    projectedLocation a = a.location := by
  simp [projectedLocation, sideCell, h]

/-- When a truthy, non-sentinel side is stored, the row's location is
the stripped concatenation. -/
theorem projectedLocation_side {R : Type} (a : Ann R) (s : String)
    (h : a.side = some s) (h1 : s ≠ "") (h2 : s ≠ "Select...") :
    projectedLocation a = pyStrip (s ++ " " ++ a.location) := by
  simp [projectedLocation, sideCell, h, h1, h2]

/-- In `testv2.py`'s lambda a stored non-sentinel side is prepended
without stripping. -/
theorem projectedLocationV2_some {R : Type} (a : Ann R) (s : String)
    (h : a.side = some s) (h2 : (s != "Select...") = true) :
    projectedLocationV2 true a = s ++ " " ++ a.location := by
  simp [projectedLocationV2, cellNeqSentinel, cellStr, h, h2]

/-- In `testv2.py`'s lambda a record without a side, inside a frame
that has a side column, gets the rendered NaN prefix. -/
theorem projectedLocationV2_none_mixed {R : Type} (a : Ann R)
    (h : a.side = none) :
    projectedLocationV2 true a = "nan" ++ " " ++ a.location := by
  simp [projectedLocationV2, cellNeqSentinel, cellStr, h]

/-- In `testv2.py`'s lambda a record in a frame with no side column
passes its location through unchanged. -/
theorem projectedLocationV2_no_col {R : Type} (a : Ann R) :
    projectedLocationV2 false a = a.location := by
  simp [projectedLocationV2]

/-- Counterexample to C2 as stated: in the `testv2.py` projector (cited
by the claim), a frame holding a sided "Sigmoid sinus" record and an
unsided "Torcula" record projects the unsided record to "nan Torcula",
not to "Torcula" unchanged (its side cell is NaN, and
`NaN != "Select..."` is true). -/
theorem projected_location_v2_counterexample :
    (df_summary_v2
        ([⟨1, (0 : ℤ), 0, "Sigmoid sinus", some "Left", "10"⟩,
          ⟨2, 0, 0, "Torcula", none, "12"⟩] : List (Ann ℤ))).rows =
      [("Left Sigmoid sinus", "10"), ("nan Torcula", "12")] ∧
    ("nan Torcula" : String) ≠ "Torcula" :=
  ⟨by decide, by decide⟩

/-- Claim C2 (amended): for a record whose location is in the controlled
vocabulary: in the `beefed_up_venous.py` projector a stored side of
"Left" or "Right" makes the projected location exactly
`side ++ " " ++ location` and an absent side leaves the location
unchanged; in the `testv2.py` projector a stored side of "Left" or
"Right" also yields `side ++ " " ++ location`, but an absent side
leaves the location unchanged only when the frame has no side column —
when it does, the projected location is `"nan " ++ location`. -/
theorem projected_location_side_merge {R : Type} (a : Ann R)
    (hloc : a.location ∈ LOCATIONS) :
    (∀ s, a.side = some s → s = "Left" ∨ s = "Right" →
      projectedLocation a = s ++ " " ++ a.location ∧
      projectedLocationV2 true a = s ++ " " ++ a.location) ∧
    (a.side = none →
      projectedLocation a = a.location ∧
      projectedLocationV2 false a = a.location ∧
      projectedLocationV2 true a = "nan" ++ " " ++ a.location) := by
  simp only [LOCATIONS, List.mem_cons, List.not_mem_nil, or_false] at hloc
  constructor
  · rintro s hs (rfl | rfl)
    · refine ⟨?_, projectedLocationV2_some a "Left" hs rfl⟩
      rw [projectedLocation_side a "Left" hs (by decide) (by decide)]
      rcases hloc with h|h|h|h|h|h|h|h|h|h|h|h|h|h|h|h|h <;> rw [h] <;> decide
    · refine ⟨?_, projectedLocationV2_some a "Right" hs rfl⟩
      rw [projectedLocation_side a "Right" hs (by decide) (by decide)]
      rcases hloc with h|h|h|h|h|h|h|h|h|h|h|h|h|h|h|h|h <;> rw [h] <;> decide
  · intro h
    exact ⟨projectedLocation_none a h, projectedLocationV2_no_col a,
      projectedLocationV2_none_mixed a h⟩

/-- Witness for C2 (amended): a "Torcula" record sided "Left" projects
to "Left Torcula" in both projector variants. -/
theorem projected_location_side_merge_witness :
    projectedLocation (⟨1, (0 : ℤ), 0, "Torcula", some "Left", "10"⟩ : Ann ℤ) =
      "Left" ++ " " ++ "Torcula" ∧
    projectedLocationV2 true
        (⟨1, (0 : ℤ), 0, "Torcula", some "Left", "10"⟩ : Ann ℤ) =
      "Left" ++ " " ++ "Torcula" :=
  (projected_location_side_merge ⟨1, (0 : ℤ), 0, "Torcula", some "Left", "10"⟩
    (by decide)).1 "Left" rfl (Or.inl rfl)

/-- Claim C3: the `test.py`/`venous_stent.py` projector never emits a
row whose location is "Occlusion", for every record list (its own
vocabulary includes "Occlusion", so no vocabulary restriction applies);
and the `beefed_up_venous.py` projector, over the records that script
can store (locations from its own vocabulary, sides Left/Right), never
emits a row whose location is "Stenosis".  In both, the sentinel rows
are dropped before projection. -/
theorem summary_excludes_sentinels {R : Type} (anns : List (Ann R)) :
    (∀ r ∈ (df_summary_v1 anns).rows, r.1 ≠ "Occlusion") ∧
    ((∀ a ∈ anns, WellFormedAnn a) →
      ∀ r ∈ (df_summary anns).rows, r.1 ≠ "Stenosis") := by
  constructor
  · intro r hr
    by_cases he : anns.isEmpty = true
    · simp [df_summary_v1, he] at hr
    · simp only [df_summary_v1, if_neg he, List.mem_map, List.mem_filter] at hr
      obtain ⟨a, ⟨ha, hkeep⟩, rfl⟩ := hr
      dsimp only
      simpa using hkeep
  · intro hwf r hr
    by_cases he : anns.isEmpty = true
    · simp [df_summary, he] at hr
    · simp only [df_summary, if_neg he, List.mem_map, List.mem_filter] at hr
      obtain ⟨a, ⟨ha, hkeep⟩, rfl⟩ := hr
      dsimp only
      have hkeep' : a.location ≠ "Stenosis" := by simpa using hkeep
      obtain ⟨hloc, hside⟩ := hwf a ha
      simp only [LOCATIONS, List.mem_cons, List.not_mem_nil, or_false] at hloc
      rcases hside with h | h | h
      · rw [projectedLocation_none a h]
        exact hkeep'
      · rw [projectedLocation_side a "Left" h (by decide) (by decide)]
        rcases hloc with h|h|h|h|h|h|h|h|h|h|h|h|h|h|h|h|h <;> rw [h] <;> decide
      · rw [projectedLocation_side a "Right" h (by decide) (by decide)]
        rcases hloc with h|h|h|h|h|h|h|h|h|h|h|h|h|h|h|h|h <;> rw [h] <;> decide

/-- Witness for C3: an input holding an "Occlusion" record yields only
the non-sentinel "Torcula" row in the `test.py`/`venous_stent.py`
projector, and an input with a "Stenosis" marker and a sided "Torcula"
measurement yields only the non-sentinel "Left Torcula" row in the
`beefed_up_venous.py` projector. -/
theorem summary_excludes_sentinels_witness :
    (("Torcula", "12") : String × String).1 ≠ "Occlusion" ∧
    (("Left Torcula", "10") : String × String).1 ≠ "Stenosis" :=
  ⟨(summary_excludes_sentinels
      ([⟨1, 0, 0, "Occlusion", none, "OCL"⟩,
        ⟨2, 0, 0, "Torcula", none, "12"⟩] : List (Ann ℤ))).1
      ("Torcula", "12") (by decide),
   (summary_excludes_sentinels
      ([⟨1, 0, 0, "Stenosis", none, "X"⟩,
        ⟨2, 0, 0, "Torcula", some "Left", "10"⟩] : List (Ann ℤ))).2
      (by decide) ("Left Torcula", "10") (by decide)⟩

/-- Claim C10: an empty record list yields, in both projector variants,
a frame with zero rows and exactly the two columns `location` and
`value`. -/
theorem summary_empty_frame {R : Type} :
    df_summary ([] : List (Ann R)) =
      { columns := ["location", "value"], rows := [] } ∧
    df_summary_v1 ([] : List (Ann R)) =
      { columns := ["location", "value"], rows := [] } :=
  ⟨rfl, rfl⟩

/-- Claim C4: on a collection with pairwise-distinct ids that contains
a record with id `i`, the delete handler removes exactly that record:
the collection splits as `pre ++ target :: post` and deletion returns
`pre ++ post`, every other record (all its fields) unchanged and in the
same relative order. -/
theorem delete_by_id_exact {R : Type} (anns : List (Ann R)) (i : Nat)
    (hnodup : (anns.map Ann.id).Nodup) (hmem : ∃ a ∈ anns, a.id = i) :
    ∃ pre target post, anns = pre ++ target :: post ∧ target.id = i ∧
      (∀ b ∈ pre, b.id ≠ i) ∧ (∀ b ∈ post, b.id ≠ i) ∧
      deleteById anns i = pre ++ post := by
  induction anns with
  | nil => simp at hmem
  | cons c rest ih =>
    rw [List.map_cons, List.nodup_cons] at hnodup
    obtain ⟨hc_not, hrest⟩ := hnodup
    by_cases hc : c.id = i
    · have hpost : ∀ b ∈ rest, b.id ≠ i := by
        intro b hb hbid
        exact hc_not (hc ▸ hbid ▸ List.mem_map_of_mem Ann.id hb)
      refine ⟨[], c, rest, rfl, hc, by simp, hpost, ?_⟩
      have hfilter : rest.filter (fun a => a.id != i) = rest :=
        List.filter_eq_self.mpr fun b hb => by
          simpa using hpost b hb
      simp only [deleteById, List.filter_cons] at *
      simp [hc, hfilter, deleteById]
    · obtain ⟨a, ha_mem, ha_id⟩ := hmem
      have ha_rest : a ∈ rest := by
        rcases List.mem_cons.mp ha_mem with rfl | h
        · exact absurd ha_id hc
        · exact h
      obtain ⟨pre, target, post, heq, hid, hpre, hpost, hdel⟩ :=
        ih hrest ⟨a, ha_rest, ha_id⟩
      refine ⟨c :: pre, target, post, by rw [heq]; rfl, hid, ?_, hpost, ?_⟩
      · intro b hb
        rcases List.mem_cons.mp hb with rfl | h
        · exact hc
        · exact hpre b h
      · simp only [deleteById, List.filter_cons] at hdel ⊢
        simp [hc, hdel]

/-- Witness for C4: deleting id 1 from a two-record collection keeps
exactly the other record. -/
theorem delete_by_id_exact_witness :
    ∃ pre target post,
      ([⟨1, (0 : ℤ), 0, "Torcula", none, "12"⟩,
        ⟨2, 0, 0, "Stenosis", none, "X"⟩] : List (Ann ℤ)) =
          pre ++ target :: post ∧
      target.id = 1 ∧
      (∀ b ∈ pre, b.id ≠ 1) ∧ (∀ b ∈ post, b.id ≠ 1) ∧
      deleteById
        ([⟨1, (0 : ℤ), 0, "Torcula", none, "12"⟩,
          ⟨2, 0, 0, "Stenosis", none, "X"⟩] : List (Ann ℤ)) 1 =
        pre ++ post :=
  delete_by_id_exact
    [⟨1, (0 : ℤ), 0, "Torcula", none, "12"⟩,
     ⟨2, 0, 0, "Stenosis", none, "X"⟩] 1
    (by decide) ⟨⟨1, (0 : ℤ), 0, "Torcula", none, "12"⟩, by decide⟩

/-- The per-session mutable state initialised in
`beefed_up_venous.py` lines 52-57. -/
structure AppState (R : Type) where
  annotations : List (Ann R)
  next_id : Nat
  clicked_points : List (ClickPoint R)
deriving DecidableEq

/-- The initial session state: no records, counter at 1, no clicks. -/
def initState {R : Type} : AppState R :=
  { annotations := [], next_id := 1, clicked_points := [] }

/-- The value field chosen by the form (`beefed_up_venous.py` lines
154-161): empty for the "Select..." sentinel, the forced "X" marker for
"Stenosis", else the typed pressure text. -/
def annValue (location typed : String) : String :=
  if location = "Select..." then ""
  else if location = "Stenosis" then "X"
  else typed

/-- The Save-Annotation handler (`beefed_up_venous.py` lines 163-179).
A press with the sentinel location does nothing (the save block is
guarded by `location != "Select..."`).  A side-required location with
the side still at "Select..." is rejected with the inline error and no
state change.  Otherwise one record is appended, carrying the current
`next_id` and the side exactly when the location requires one, and the
counter is incremented. -/
def saveAnn {R : Type} (st : AppState R) (pt : ClickPoint R)
    (location side typed : String) : AppState R × Option String :=
  if location ≠ "Select..." then
    if location ∈ SIDE_REQUIRED ∧ side = "Select..." then
      (st, some "Please select a side (Left or Right) for this location.")
    else
      ({ st with
          annotations :=
            st.annotations ++
              [{ id := st.next_id, x := pt.x, y := pt.y,
                 location := location,
                 side :=
                   if location ∈ SIDE_REQUIRED then some side else none,
                 value := annValue location typed }],
          next_id := st.next_id + 1 },
        none)
  else
    (st, none)

/-- Claim C5: a submission whose location requires a side while the
side select is still at the "Select..." sentinel is rejected with the
inline error; the state (records, counter, clicks) is returned
unchanged, so the point's reconciliation status is also unchanged. -/
theorem save_missing_side_rejected {R : Type} [LinearOrderedRing R]
    (st : AppState R) (pt : ClickPoint R) (location side typed : String)
    (hreq : location ∈ SIDE_REQUIRED) (hside : side = "Select...") :
    (saveAnn st pt location side typed).1 = st ∧
    (saveAnn st pt location side typed).2 =
      some "Please select a side (Left or Right) for this location." ∧
    (saveAnn st pt location side typed).1.annotations = st.annotations ∧
    (saveAnn st pt location side typed).1.next_id = st.next_id ∧
    already_annotated (saveAnn st pt location side typed).1.annotations pt =
      already_annotated st.annotations pt := by
  have hne : location ≠ "Select..." := by
    intro h
    rw [h] at hreq
    exact absurd hreq (by decide)
  subst hside
  simp [saveAnn, hne, hreq]

/-- Witness for C5: submitting "Jugular bulb" with no side chosen on
the empty session leaves the state untouched. -/
theorem save_missing_side_rejected_witness :
    (saveAnn (initState : AppState ℤ) ⟨50, 50⟩ "Jugular bulb" "Select..."
      "7").1 = initState :=
  (save_missing_side_rejected initState ⟨50, 50⟩ "Jugular bulb" "Select..."
    "7" (by decide) rfl).1

/-- One user interaction of a session: a click on the image, a
Save-Annotation press, or a sidebar Delete press. -/
inductive Event (R : Type) where
  | click (pt : ClickPoint R)
  | save (pt : ClickPoint R) (location side typed : String)
  | delete (i : Nat)

/-- One full interaction pass over the session state. -/
def applyEvent {R : Type} [LinearOrderedRing R] (st : AppState R) :
    Event R → AppState R
  | Event.click pt =>
      { st with clicked_points := add_clicked_point st.clicked_points pt }
  | Event.save pt location side typed =>
      (saveAnn st pt location side typed).1
  | Event.delete i =>
      { st with annotations := deleteById st.annotations i }

/-- The ids handed out along a run, in order of assignment: an event
assigns the current `next_id` exactly when it bumps the counter. -/
def createdIds {R : Type} [LinearOrderedRing R] (st : AppState R) :
    List (Event R) → List Nat
  | [] => []
  | e :: es =>
      (if (applyEvent st e).next_id = st.next_id + 1 then [st.next_id]
       else []) ++ createdIds (applyEvent st e) es

/-- Every interaction either leaves the counter alone or bumps it by
exactly one. -/
theorem nextId_applyEvent {R : Type} [LinearOrderedRing R]
    (st : AppState R) (e : Event R) :
    (applyEvent st e).next_id = st.next_id ∨
      (applyEvent st e).next_id = st.next_id + 1 := by
  cases e with
  | click pt => exact Or.inl rfl
  | delete i => exact Or.inl rfl
  | save pt location side typed =>
    by_cases h1 : location ≠ "Select..."
    · by_cases h2 : location ∈ SIDE_REQUIRED ∧ side = "Select..."
      · exact Or.inl (by simp [applyEvent, saveAnn, h1, h2])
      · exact Or.inr (by simp [applyEvent, saveAnn, h1, h2])
    · exact Or.inl (by simp [applyEvent, saveAnn, h1])

/-- Along any run the assigned ids are the consecutive block starting
at the initial counter value. -/
theorem createdIds_range {R : Type} [LinearOrderedRing R] :
    ∀ (es : List (Event R)) (st : AppState R),
      ∃ k, createdIds st es = List.range' st.next_id k := by
  intro es
  induction es with
  | nil => exact fun st => ⟨0, rfl⟩
  | cons e es ih =>
    intro st
    obtain ⟨k, hk⟩ := ih (applyEvent st e)
    rcases nextId_applyEvent st e with h | h
    · have hcond : ¬((applyEvent st e).next_id = st.next_id + 1) := by
        rw [h]
        omega
      refine ⟨k, ?_⟩
      simp [createdIds, hcond, hk, h]
    · refine ⟨k + 1, ?_⟩
      rw [List.range'_succ]
      simp [createdIds, h, hk]

/-- Claim C6: in a session started from the initial state, the ids
assigned across any sequence of clicks, saves, and deletions form the
consecutive block `1, 2, ...`: each new record's id is strictly greater
than every id assigned before it, no id repeats, and the counter starts
at 1. -/
theorem ids_strictly_increasing {R : Type} [LinearOrderedRing R]
    (events : List (Event R)) :
    (createdIds initState events).Pairwise (· < ·) ∧
    (createdIds initState events).Nodup ∧
    ∃ k, createdIds initState events = List.range' 1 k := by
  obtain ⟨k, hk⟩ := createdIds_range events (initState : AppState R)
  refine ⟨?_, ?_, ⟨k, hk⟩⟩
  · rw [hk]
    exact List.pairwise_lt_range' 1 k
  · rw [hk]
    exact List.nodup_range' ..

/-- The static secret of `main.py` line 7. -/
def VALID_API_KEY : String := "8fc1b4fd80f5cb3c6e705a1428342c02"

/-- `verify_api_key` (`main.py` lines 10-13): reject a present key that
differs from the secret with a 403 HTTPException, else return it. -/
def verify_api_key (api_key : String) : Except (Nat × String) String :=
  if api_key ≠ VALID_API_KEY then
    Except.error (403, "Invalid or missing API key")
  else
    Except.ok api_key

/-- A JSON value, for the arbitrary `dict` body of the relay. -/
inductive Json where
  | null
  | bool (b : Bool)
  | num (n : Int)
  | str (s : String)
  | arr (xs : List Json)
  | obj (fields : List (String × Json))

/-- The observable HTTP response of the relay: a 200 success echoing the
body inside `{"status": "saved", "annotation": ...}`, a 403 from the
credential dependency, or the framework's request-validation rejection. -/
inductive RelayResponse (B : Type) where
  | saved (status : Nat) (echoed : B)
  | denied (status : Nat) (detail : String)
  | invalid (status : Nat)
deriving DecidableEq

/-- The `POST /save_annotation` route (`main.py` lines 19-23).  The
`api_key: str = Header(...)` parameter of the dependency is a required
header: `Header(...)` has no default, so a request without the header
is rejected by FastAPI request validation with status 422 before the
dependency runs; a present header goes through `verify_api_key`, and on
success the handler echoes the body with status 200. -/
def handleSaveAnn {B : Type} (header : Option String) (body : B) :
    RelayResponse B :=
  match header with
  | none => RelayResponse.invalid 422
  | some k =>
    match verify_api_key k with
    | Except.error (s, d) => RelayResponse.denied s d
    | Except.ok _ => RelayResponse.saved 200 body

/-- The HTTP status of a relay response. -/
def respStatus {B : Type} : RelayResponse B → Nat
  | RelayResponse.saved s _ => s
  | RelayResponse.denied s _ => s
  | RelayResponse.invalid s => s

/-- Counterexample to C7 as stated: a request that lacks the `api_key`
header entirely is answered with the framework's validation status 422,
not with 403. -/
theorem relay_missing_key_counterexample :
    respStatus
        (handleSaveAnn none
          (Json.obj [("id", Json.num 1), ("location", Json.str "Torcula")])) =
      422 ∧ (422 : Nat) ≠ 403 :=
  ⟨rfl, by decide⟩

/-- Claim C7 (amended): with the header present and equal to the secret,
`POST /save_annotation` answers 200 and echoes any body; with the header
present but wrong it answers 403 with the generic message and echoes
nothing; with the header missing, request validation rejects it with
422 and echoes nothing. -/
theorem relay_key_check {B : Type} (body : B) (k : String) :
    (k = VALID_API_KEY →
      handleSaveAnn (some k) body = RelayResponse.saved 200 body) ∧
    (k ≠ VALID_API_KEY →
      handleSaveAnn (some k) body =
        RelayResponse.denied 403 "Invalid or missing API key") ∧
    handleSaveAnn none body = RelayResponse.invalid 422 := by
  refine ⟨?_, ?_, rfl⟩
  · intro h
    subst h
    simp [handleSaveAnn, verify_api_key]
  · intro h
    simp [handleSaveAnn, verify_api_key, h]

/-- Witness for C7 (amended): the scenario-5 body is echoed under the
correct credential and denied with 403 under a wrong one. -/
theorem relay_key_check_witness :
    handleSaveAnn (some "8fc1b4fd80f5cb3c6e705a1428342c02")
        (Json.obj [("id", Json.num 1), ("location", Json.str "Torcula")]) =
      RelayResponse.saved 200
        (Json.obj [("id", Json.num 1), ("location", Json.str "Torcula")]) ∧
    handleSaveAnn (some "wrong-key")
        (Json.obj [("id", Json.num 1), ("location", Json.str "Torcula")]) =
      RelayResponse.denied 403 "Invalid or missing API key" :=
  ⟨(relay_key_check
      (Json.obj [("id", Json.num 1), ("location", Json.str "Torcula")])
      "8fc1b4fd80f5cb3c6e705a1428342c02").1 rfl,
   (relay_key_check
      (Json.obj [("id", Json.num 1), ("location", Json.str "Torcula")])
      "wrong-key").2.1 (by decide)⟩

/-- One lowercase hexadecimal digit for a nibble. -/
def hexDigit (n : Nat) : Char :=
  if n < 10 then Char.ofNat (48 + n) else Char.ofNat (87 + n)

/-- The two lowercase hexadecimal digits of one byte. -/
def byteHex (b : Nat) : List Char :=
  [hexDigit (b / 16), hexDigit (b % 16)]

/-- `secrets.token_hex` applied to the drawn bytes: each byte becomes
two lowercase hexadecimal digits.  The secure random draw of the
library call is modelled as the byte-list argument. -/
def token_hex (bytes : List Nat) : String :=
  String.mk (bytes.flatMap byteHex)

/-- `generate_api_key` (`api_maker.py` lines 3-5): `secrets.token_hex(16)`,
a 32-character hexadecimal token from 16 random bytes. -/
def generate_api_key (randomBytes : List Nat) : String :=
  token_hex randomBytes

/-- The single stdout line of `api_maker.py` line 8:
`print("Your generated API key:", api_key)`. -/
def scriptOutput (randomBytes : List Nat) : String :=
  "Your generated API key: " ++ generate_api_key randomBytes ++ "\n"

/-- Each nibble maps into the lowercase hexadecimal alphabet. -/
theorem hexDigit_mem : ∀ n, n < 16 → hexDigit n ∈ "0123456789abcdef".data := by
  decide

/-- Claim C9: for any draw of 16 bytes, the generated key is exactly 32
characters, all lowercase hexadecimal digits, and the script's one
stdout line is the labelled key. -/
theorem api_key_hex_shape (bytes : List Nat) (hlen : bytes.length = 16)
    (hbytes : ∀ b ∈ bytes, b < 256) :
    (generate_api_key bytes).length = 32 ∧
    (∀ c ∈ (generate_api_key bytes).data, c ∈ "0123456789abcdef".data) ∧
    scriptOutput bytes =
      "Your generated API key: " ++ generate_api_key bytes ++ "\n" := by
  refine ⟨?_, ?_, rfl⟩
  · have hgen : ∀ l : List Nat, (l.flatMap byteHex).length = 2 * l.length := by
      intro l
      induction l with
      | nil => rfl
      | cons b bs ih =>
        rw [List.flatMap_cons, List.length_append, ih]
        simp [byteHex]
        omega
    show (bytes.flatMap byteHex).length = 32
    rw [hgen, hlen]
  · intro c hc
    have hc' : c ∈ bytes.flatMap byteHex := hc
    obtain ⟨b, hb, hcb⟩ := List.mem_flatMap.mp hc'
    have hb256 := hbytes b hb
    simp only [byteHex, List.mem_cons, List.not_mem_nil, or_false] at hcb
    rcases hcb with rfl | rfl
    · exact hexDigit_mem (b / 16) (Nat.div_lt_of_lt_mul (by omega))
    · exact hexDigit_mem (b % 16) (Nat.mod_lt b (by omega))

/-- Witness for C9: the all-zero draw yields a 32-character key. -/
theorem api_key_hex_shape_witness :
    (generate_api_key (List.replicate 16 0)).length = 32 :=
  (api_key_hex_shape (List.replicate 16 0) (by decide) (by decide)).1
